import Mathlib

/-!
Shallow embedding of the ARM64 hypervisor core (GICv2, Generic Timer,
interrupt facade, MMIO bus, PL011 UART, and the exit handlers for
WFI/WFE, Data Abort and HVC/PSCI), together with proofs about the
behaviour of those components.  Each definition is translated from the
corresponding Rust item in `src/`; Rust fixed-width integers are
modelled as `Nat` with explicit `% 2^w` where wrap-around matters.
-/

namespace Hypervisor

/-- Modulus of Rust `u32` arithmetic. -/
def U32 : Nat := 2 ^ 32

/-- Modulus of Rust `u64` arithmetic. -/
def U64 : Nat := 2 ^ 64

/-- Rust `u64::wrapping_add`. -/
def wadd64 (a b : Nat) : Nat := (a + b) % U64

/-- Rust `u64::wrapping_sub` (operands taken modulo `2^64`). -/
def wsub64 (a b : Nat) : Nat := (a % U64 + U64 - b % U64) % U64

/-- Rust `u64` multiplication in a release build: the product wraps
modulo `2^64` (a debug build would panic on overflow; the release
semantics is modelled). -/
def wmul64 (a b : Nat) : Nat := a * b % U64

/-- Rust `MAX_IRQS` from `src/devices/gic.rs`. -/
def MAX_IRQS : Nat := 256

/-- State of the GICv2 distributor (`GicDistributor` in
`src/devices/gic.rs`).  The Rust `[u32; 8]` bitmap arrays and the
`[u8; 256]` byte arrays are modelled as functions from the index to the
stored value; every array access in the source is guarded by an
`irq < MAX_IRQS` bounds check, so only in-range indices are ever used. -/
structure GicDistributor where
  enabled : Bool
  irq_enabled : Nat → Nat
  irq_pending : Nat → Nat
  irq_active : Nat → Nat
  irq_priority : Nat → Nat
  irq_targets : Nat → Nat

/-- State of the GICv2 CPU interface (`GicCpuInterface`). -/
structure GicCpuInterface where
  enabled : Bool
  priority_mask : Nat
  binary_point : Nat
  running_irq : Option Nat
  running_priority : Nat

/-- Whole-GIC state (`Gic` in `src/devices/gic.rs`; the `base_addr`
field only affects bus registration and is omitted). -/
structure Gic where
  distributor : GicDistributor
  cpu_interface : GicCpuInterface

/-- Rust `Gic::set_irq_pending`: set the pending bit of `irq` if in range. -/
def Gic.set_irq_pending (g : Gic) (irq : Nat) : Gic :=
  if irq < MAX_IRQS then
    let idx := irq / 32
    let bit := irq % 32
    { g with distributor.irq_pending :=
        (Function.update g.distributor.irq_pending idx
          (g.distributor.irq_pending idx ||| (1 <<< bit))) }
  else g

/-- Rust `Gic::clear_irq_pending`: clear the pending bit of `irq` if in range.
Rust `!(1 << bit)` on a `u32` is the 32-bit complement, i.e.
`0xFFFF_FFFF ^^^ (1 <<< bit)`. -/
def Gic.clear_irq_pending (g : Gic) (irq : Nat) : Gic :=
  if irq < MAX_IRQS then
    let idx := irq / 32
    let bit := irq % 32
    { g with distributor.irq_pending :=
        (Function.update g.distributor.irq_pending idx
          (g.distributor.irq_pending idx &&& ((U32 - 1) ^^^ (1 <<< bit)))) }
  else g

/-- One iteration of the scan loop in `Gic::get_highest_pending_irq`.
The accumulator is the pair `(highest_irq, highest_priority)`. -/
def Gic.ghpiStep (g : Gic) (acc : Option Nat × Nat) (irq : Nat) :
    Option Nat × Nat :=
  let idx := irq / 32
  let bit := irq % 32
  let is_enabled := Nat.testBit (g.distributor.irq_enabled idx) bit
  let is_pending := Nat.testBit (g.distributor.irq_pending idx) bit
  let is_active := Nat.testBit (g.distributor.irq_active idx) bit
  if is_enabled && is_pending && !is_active then
    let priority := g.distributor.irq_priority irq
    if priority < g.cpu_interface.priority_mask ∧
        priority < g.cpu_interface.running_priority ∧
        priority < acc.2 then
      (some irq, priority)
    else acc
  else acc

/-- Rust `Gic::get_highest_pending_irq`: scan all IRQs in ascending order,
keeping the first one with the strictly lowest priority seen so far. -/
def Gic.get_highest_pending_irq (g : Gic) : Option Nat :=
  if !g.distributor.enabled || !g.cpu_interface.enabled then none
  else ((List.range MAX_IRQS).foldl g.ghpiStep (none, 0xFF)).1

/-- Rust `Gic::acknowledge_irq` (a read of IAR): returns the acknowledged IRQ
(or the spurious id 1023) together with the updated GIC state. -/
def Gic.acknowledge_irq (g : Gic) : Nat × Gic :=
  match g.get_highest_pending_irq with
  | some irq =>
    let idx := irq / 32
    let bit := irq % 32
    let d := g.distributor
    let d' := { d with
      irq_active := (Function.update d.irq_active idx
        (d.irq_active idx ||| (1 <<< bit))),
      irq_pending := (Function.update d.irq_pending idx
        (d.irq_pending idx &&& ((U32 - 1) ^^^ (1 <<< bit)))) }
    let c' := { g.cpu_interface with
      running_irq := some irq,
      running_priority := d.irq_priority irq }
    (irq, { g with distributor := d', cpu_interface := c' })
  | none => (1023, g)

/-- Rust `Gic::end_of_interrupt` (a write of EOIR): clear the active bit and,
when the ended IRQ is the running one, reset the running state. -/
def Gic.end_of_interrupt (g : Gic) (irq : Nat) : Gic :=
  if irq < MAX_IRQS then
    let idx := irq / 32
    let bit := irq % 32
    let d := g.distributor
    let d' := { d with
      irq_active := (Function.update d.irq_active idx
        (d.irq_active idx &&& ((U32 - 1) ^^^ (1 <<< bit)))) }
    let c := g.cpu_interface
    let c' := if c.running_irq = some irq then
        { c with running_irq := none, running_priority := 0xFF }
      else c
    { g with distributor := d', cpu_interface := c' }
  else g

/-- Rust `Gic::has_pending_interrupt`. -/
def Gic.has_pending_interrupt (g : Gic) : Bool :=
  g.get_highest_pending_irq.isSome

/-- Rust `Gic::write_cpu_interface` (GICC register offsets from
`gicc_regs`). -/
def Gic.write_cpu_interface (g : Gic) (offset value : Nat) : Gic :=
  match offset with
  | 0x000 => { g with cpu_interface.enabled := value &&& 1 != 0 }
  | 0x004 => { g with cpu_interface.priority_mask := value &&& 0xFF }
  | 0x008 => { g with cpu_interface.binary_point := value &&& 0x7 }
  | 0x010 => g.end_of_interrupt (value &&& 0x3FF)
  | _ => g

/-- Bit `i` of a per-IRQ bitmap stored as eight 32-bit words, exactly as
the source tests it: word `i / 32`, bit `i % 32`. -/
def bitmapBit (w : Nat → Nat) (i : Nat) : Bool :=
  Nat.testBit (w (i / 32)) (i % 32)

/-- Enabled bit of IRQ `i`. -/
def Gic.enabledBit (g : Gic) (i : Nat) : Bool :=
  bitmapBit g.distributor.irq_enabled i

/-- Pending bit of IRQ `i`. -/
def Gic.pendingBit (g : Gic) (i : Nat) : Bool :=
  bitmapBit g.distributor.irq_pending i

/-- Active bit of IRQ `i`. -/
def Gic.activeBit (g : Gic) (i : Nat) : Bool :=
  bitmapBit g.distributor.irq_active i

/-- The per-IRQ part of the deliverability predicate: the conditions the
scan loop checks for each IRQ (enabled, pending, not active, priority
below the mask and below the running priority). -/
def Gic.QDel (g : Gic) (i : Nat) : Prop :=
  g.enabledBit i = true ∧ g.pendingBit i = true ∧ g.activeBit i = false ∧
  g.distributor.irq_priority i < g.cpu_interface.priority_mask ∧
  g.distributor.irq_priority i < g.cpu_interface.running_priority

/-- The deliverability predicate of the spec: `dist_enabled ∧
cpuif_enabled ∧ enabled[i] ∧ pending[i] ∧ ¬active[i] ∧
priority[i] < priority_mask ∧ priority[i] < running_priority`. -/
def Gic.Deliverable (g : Gic) (i : Nat) : Prop :=
  g.distributor.enabled = true ∧ g.cpu_interface.enabled = true ∧ g.QDel i

instance (g : Gic) (i : Nat) : Decidable (g.QDel i) := by
  unfold Gic.QDel; infer_instance

instance (g : Gic) (i : Nat) : Decidable (g.Deliverable i) := by
  unfold Gic.Deliverable; infer_instance

/-- The scan step fires exactly on `QDel` plus a strict priority
improvement over the accumulator. -/
theorem Gic.ghpiStep_eq (g : Gic) (acc : Option Nat × Nat) (irq : Nat) :
    g.ghpiStep acc irq =
      if g.QDel irq ∧ g.distributor.irq_priority irq < acc.2 then
        (some irq, g.distributor.irq_priority irq)
      else acc := by
  simp only [Gic.ghpiStep, Gic.QDel, Gic.enabledBit, Gic.pendingBit,
    Gic.activeBit, bitmapBit]
  by_cases hE : (g.distributor.irq_enabled (irq / 32)).testBit (irq % 32) = true <;>
    by_cases hP : (g.distributor.irq_pending (irq / 32)).testBit (irq % 32) = true <;>
      by_cases hA : (g.distributor.irq_active (irq / 32)).testBit (irq % 32) = true <;>
        simp [hE, hP, hA, and_assoc]

/-- When no IRQ below `n` satisfies the scan condition, the scan of
`0..n` leaves the accumulator at its initial value. -/
theorem Gic.scan_none (g : Gic) (n : Nat) (h : ∀ j < n, ¬ g.QDel j) :
    (List.range n).foldl g.ghpiStep (none, 0xFF) = (none, 0xFF) := by
  induction n with
  | zero => rfl
  | succ n ih =>
    rw [List.range_succ, List.foldl_append, ih (fun j hj => h j (by omega)),
      List.foldl_cons, List.foldl_nil, Gic.ghpiStep_eq]
    exact if_neg (fun hc => h n (by omega) hc.1)

/-- Invariant of the arbitration scan after the first `n` IRQs: either
nothing fired yet, or the accumulator holds the first IRQ below `n`
achieving the minimal priority among those satisfying `QDel`. -/
def Gic.ScanInv (g : Gic) (n : Nat) (acc : Option Nat × Nat) : Prop :=
  (acc = (none, 0xFF) ∧ ∀ j < n, ¬ g.QDel j) ∨
  (∃ i₀, acc = (some i₀, g.distributor.irq_priority i₀) ∧ i₀ < n ∧
    g.QDel i₀ ∧ g.distributor.irq_priority i₀ < 0xFF ∧
    (∀ j < n, g.QDel j →
      g.distributor.irq_priority i₀ ≤ g.distributor.irq_priority j) ∧
    (∀ j < i₀, g.QDel j →
      g.distributor.irq_priority i₀ < g.distributor.irq_priority j))

/-- The scan invariant holds after scanning `0..n`, provided the
priority mask is a `u8` value. -/
theorem Gic.scan_inv (g : Gic) (hm : g.cpu_interface.priority_mask < 256)
    (n : Nat) :
    g.ScanInv n ((List.range n).foldl g.ghpiStep (none, 0xFF)) := by
  induction n with
  | zero => exact Or.inl ⟨rfl, by omega⟩
  | succ n ih =>
    rw [List.range_succ, List.foldl_append, List.foldl_cons, List.foldl_nil,
      Gic.ghpiStep_eq]
    rcases ih with ⟨heq, hnone⟩ | ⟨i₀, heq, hi₀n, hQ₀, hlt, hmin, hstrict⟩
    · rw [heq]
      by_cases hq : g.QDel n
      · have hp : g.distributor.irq_priority n < 0xFF := by
          have := hq.2.2.2.1
          omega
        rw [if_pos ⟨hq, hp⟩]
        refine Or.inr ⟨n, rfl, by omega, hq, hp, ?_, ?_⟩
        · intro j hj hQj
          rcases Nat.lt_succ_iff_lt_or_eq.mp hj with hj' | hj'
          · exact absurd hQj (hnone j hj')
          · subst hj'; exact Nat.le_refl _
        · intro j hj hQj
          exact absurd hQj (hnone j (by omega))
      · rw [if_neg (fun hc => hq hc.1)]
        refine Or.inl ⟨rfl, ?_⟩
        intro j hj
        rcases Nat.lt_succ_iff_lt_or_eq.mp hj with hj' | hj'
        · exact hnone j hj'
        · subst hj'; exact hq
    · rw [heq]
      by_cases hc : g.QDel n ∧
          g.distributor.irq_priority n < g.distributor.irq_priority i₀
      · rw [if_pos hc]
        refine Or.inr ⟨n, rfl, by omega, hc.1, by omega, ?_, ?_⟩
        · intro j hj hQj
          rcases Nat.lt_succ_iff_lt_or_eq.mp hj with hj' | hj'
          · have := hmin j hj' hQj
            omega
          · subst hj'; exact Nat.le_refl _
        · intro j hj hQj
          have := hmin j (by omega) hQj
          omega
      · rw [if_neg hc]
        refine Or.inr ⟨i₀, rfl, by omega, hQ₀, hlt, ?_, hstrict⟩
        intro j hj hQj
        rcases Nat.lt_succ_iff_lt_or_eq.mp hj with hj' | hj'
        · exact hmin j hj' hQj
        · subst hj'
          by_cases hq : g.distributor.irq_priority j <
              g.distributor.irq_priority i₀
          · exact absurd ⟨hQj, hq⟩ hc
          · omega

/-- When no IRQ is deliverable, the arbiter finds nothing. -/
theorem Gic.ghpi_none (g : Gic) (h : ∀ j < 256, ¬ g.Deliverable j) :
    g.get_highest_pending_irq = none := by
  unfold Gic.get_highest_pending_irq
  by_cases hd : g.distributor.enabled
  · by_cases hcpu : g.cpu_interface.enabled
    · have hq : ∀ j < 256, ¬ g.QDel j := fun j hj hQ =>
        h j hj ⟨hd, hcpu, hQ⟩
      rw [Gic.scan_none g MAX_IRQS hq]
      simp [hd, hcpu]
    · simp [hcpu]
  · simp [hd]

/-- When no IRQ is deliverable, a read of IAR returns the spurious
id 1023 and leaves the state unchanged. -/
theorem Gic.ack_spurious (g : Gic) (h : ∀ j < 256, ¬ g.Deliverable j) :
    g.acknowledge_irq = (1023, g) := by
  unfold Gic.acknowledge_irq
  rw [Gic.ghpi_none g h]

/-- Clearing a bit with the 32-bit complement mask really clears it. -/
theorem testBit_clear_self (w b : Nat) (hb : b < 32) :
    Nat.testBit (w &&& ((U32 - 1) ^^^ (1 <<< b))) b = false := by
  rw [Nat.testBit_and, Nat.testBit_xor, Nat.one_shiftLeft,
    Nat.testBit_two_pow_self]
  unfold U32
  rw [Nat.testBit_two_pow_sub_one]
  simp [hb]

/-- Setting a bit with `||| (1 <<< b)` really sets it. -/
theorem testBit_set_self (w b : Nat) :
    Nat.testBit (w ||| (1 <<< b)) b = true := by
  rw [Nat.testBit_or, Nat.one_shiftLeft, Nat.testBit_two_pow_self]
  simp

/-- Unfolding of `acknowledge_irq` when the arbiter found an IRQ. -/
theorem Gic.acknowledge_irq_some (g : Gic) (i₀ : Nat)
    (h : g.get_highest_pending_irq = some i₀) :
    g.acknowledge_irq = (i₀,
      { g with
        distributor := { g.distributor with
          irq_active := (Function.update g.distributor.irq_active (i₀ / 32)
            (g.distributor.irq_active (i₀ / 32) ||| (1 <<< (i₀ % 32)))),
          irq_pending := (Function.update g.distributor.irq_pending (i₀ / 32)
            (g.distributor.irq_pending (i₀ / 32) &&&
              ((U32 - 1) ^^^ (1 <<< (i₀ % 32))))) },
        cpu_interface := { g.cpu_interface with
          running_irq := some i₀,
          running_priority := g.distributor.irq_priority i₀ } }) := by
  unfold Gic.acknowledge_irq
  rw [h]

/-- C1: a read of IAR returns the deliverable IRQ of numerically lowest
priority (ties to the lowest index), clears its pending bit, sets its
active bit and records it as the running IRQ with its priority; with no
deliverable IRQ it returns the spurious id 1023.  The hypothesis is the
`u8` range of the priority-mask register. -/
theorem gic_iar_spec (g : Gic) (hm : g.cpu_interface.priority_mask < 256) :
    ((∃ i, i < 256 ∧ g.Deliverable i) →
      ∃ i₀, i₀ < 256 ∧ g.Deliverable i₀ ∧
        (∀ j, j < 256 → g.Deliverable j →
          g.distributor.irq_priority i₀ ≤ g.distributor.irq_priority j) ∧
        (∀ j, j < i₀ → g.Deliverable j →
          g.distributor.irq_priority i₀ < g.distributor.irq_priority j) ∧
        (g.acknowledge_irq).1 = i₀ ∧
        (g.acknowledge_irq).2.pendingBit i₀ = false ∧
        (g.acknowledge_irq).2.activeBit i₀ = true ∧
        (g.acknowledge_irq).2.cpu_interface.running_irq = some i₀ ∧
        (g.acknowledge_irq).2.cpu_interface.running_priority =
          g.distributor.irq_priority i₀) ∧
    ((∀ i, i < 256 → ¬ g.Deliverable i) → g.acknowledge_irq = (1023, g)) := by
  constructor
  · rintro ⟨i, hi, hd, hcpu, hQi⟩
    rcases Gic.scan_inv g hm 256 with ⟨_, hnone⟩ |
      ⟨i₀, heq, hi₀, hQ₀, _, hmin, hstrict⟩
    · exact absurd hQi (hnone i hi)
    · have hghpi : g.get_highest_pending_irq = some i₀ := by
        unfold Gic.get_highest_pending_irq
        simp only [hd, hcpu, Bool.not_true, Bool.or_self, Bool.false_eq_true,
          if_false, MAX_IRQS]
        rw [heq]
      rw [Gic.acknowledge_irq_some g i₀ hghpi]
      refine ⟨i₀, hi₀, ⟨hd, hcpu, hQ₀⟩, ?_, ?_, rfl, ?_, ?_, rfl, rfl⟩
      · exact fun j hj hDj => hmin j hj hDj.2.2
      · exact fun j hj hDj => hstrict j hj hDj.2.2
      · simp only [Gic.pendingBit, bitmapBit]
        rw [Function.update_same]
        exact testBit_clear_self _ _ (Nat.mod_lt _ (by norm_num))
      · simp only [Gic.activeBit, bitmapBit]
        rw [Function.update_same]
        exact testBit_set_self _ _
  · exact fun h => Gic.ack_spurious g h

/-- C2: writing an in-range IRQ to EOIR clears its active bit; when it
is the running IRQ the running state is reset to idle; and after that,
a read of IAR returns 1023 when nothing is deliverable any more. -/
theorem gic_eoir_spec (g : Gic) (irq : Nat) (h : irq < 256) :
    (g.end_of_interrupt irq).activeBit irq = false ∧
    (g.cpu_interface.running_irq = some irq →
      (g.end_of_interrupt irq).cpu_interface.running_irq = none ∧
      (g.end_of_interrupt irq).cpu_interface.running_priority = 0xFF) ∧
    ((∀ j, j < 256 → ¬ (g.end_of_interrupt irq).Deliverable j) →
      ((g.end_of_interrupt irq).acknowledge_irq).1 = 1023) := by
  have h' : irq < MAX_IRQS := h
  refine ⟨?_, ?_, ?_⟩
  · unfold Gic.end_of_interrupt
    rw [if_pos h']
    simp only [Gic.activeBit, bitmapBit]
    rw [Function.update_same]
    exact testBit_clear_self _ _ (Nat.mod_lt _ (by norm_num))
  · intro hrun
    unfold Gic.end_of_interrupt
    rw [if_pos h']
    simp [hrun]
  · intro hnone
    rw [Gic.ack_spurious _ hnone]

/-- C10: the GIC mutators silently ignore out-of-range IRQ numbers
(`irq ≥ 256` leaves the whole state untouched), and an EOIR write
first masks the written value to 10 bits. -/
theorem gic_oob_noop (g : Gic) (irq : Nat) (h : 256 ≤ irq) :
    g.set_irq_pending irq = g ∧ g.clear_irq_pending irq = g ∧
    g.end_of_interrupt irq = g ∧
    (∀ v, g.write_cpu_interface 0x010 v =
      g.end_of_interrupt (v &&& 0x3FF)) := by
  have h' : ¬ irq < MAX_IRQS := by unfold MAX_IRQS; omega
  refine ⟨?_, ?_, ?_, fun v => rfl⟩ <;>
    simp [Gic.set_irq_pending, Gic.clear_irq_pending, Gic.end_of_interrupt, h']

/-- Concrete GIC state used by witnesses: everything off, all zero. -/
def gEx0 : Gic :=
  { distributor :=
    { enabled := false
      irq_enabled := fun _ => 0
      irq_pending := fun _ => 0
      irq_active := fun _ => 0
      irq_priority := fun _ => 0xA0
      irq_targets := fun _ => 1 }
    cpu_interface :=
    { enabled := false
      priority_mask := 0xFF
      binary_point := 0
      running_irq := none
      running_priority := 0xFF } }

/-- Concrete GIC state with IRQs 32 and 33 enabled and pending, IRQ 33
at the better (lower) priority. -/
def gEx1 : Gic :=
  { distributor :=
    { enabled := true
      irq_enabled := fun i => if i = 1 then 3 else 0
      irq_pending := fun i => if i = 1 then 3 else 0
      irq_active := fun _ => 0
      irq_priority := fun i => if i = 33 then 0x40 else 0x80
      irq_targets := fun _ => 1 }
    cpu_interface :=
    { enabled := true
      priority_mask := 0xFF
      binary_point := 0
      running_irq := none
      running_priority := 0xFF } }

/-- Witness for C1 at the concrete state `gEx1`. -/
theorem gic_iar_spec_witness :
    gEx1.cpu_interface.priority_mask < 256 ∧
    (((∃ i, i < 256 ∧ gEx1.Deliverable i) →
      ∃ i₀, i₀ < 256 ∧ gEx1.Deliverable i₀ ∧
        (∀ j, j < 256 → gEx1.Deliverable j →
          gEx1.distributor.irq_priority i₀ ≤ gEx1.distributor.irq_priority j) ∧
        (∀ j, j < i₀ → gEx1.Deliverable j →
          gEx1.distributor.irq_priority i₀ < gEx1.distributor.irq_priority j) ∧
        (gEx1.acknowledge_irq).1 = i₀ ∧
        (gEx1.acknowledge_irq).2.pendingBit i₀ = false ∧
        (gEx1.acknowledge_irq).2.activeBit i₀ = true ∧
        (gEx1.acknowledge_irq).2.cpu_interface.running_irq = some i₀ ∧
        (gEx1.acknowledge_irq).2.cpu_interface.running_priority =
          gEx1.distributor.irq_priority i₀) ∧
    ((∀ i, i < 256 → ¬ gEx1.Deliverable i) →
      gEx1.acknowledge_irq = (1023, gEx1))) :=
  ⟨by decide, gic_iar_spec gEx1 (by decide)⟩

/-- Witness for C2 at the concrete state `gEx1` with IRQ 33. -/
theorem gic_eoir_spec_witness :
    (33 : Nat) < 256 ∧
    ((gEx1.end_of_interrupt 33).activeBit 33 = false ∧
    (gEx1.cpu_interface.running_irq = some 33 →
      (gEx1.end_of_interrupt 33).cpu_interface.running_irq = none ∧
      (gEx1.end_of_interrupt 33).cpu_interface.running_priority = 0xFF) ∧
    ((∀ j, j < 256 → ¬ (gEx1.end_of_interrupt 33).Deliverable j) →
      ((gEx1.end_of_interrupt 33).acknowledge_irq).1 = 1023)) :=
  ⟨by decide, gic_eoir_spec gEx1 33 (by decide)⟩

/-- Witness for C10 at the concrete state `gEx0` with IRQ 300. -/
theorem gic_oob_noop_witness :
    (256 : Nat) ≤ 300 ∧
    (gEx0.set_irq_pending 300 = gEx0 ∧ gEx0.clear_irq_pending 300 = gEx0 ∧
    gEx0.end_of_interrupt 300 = gEx0 ∧
    (∀ v, gEx0.write_cpu_interface 0x010 v =
      gEx0.end_of_interrupt (v &&& 0x3FF))) :=
  ⟨by decide, gic_oob_noop gEx0 300 (by decide)⟩

/-- Rust `TIMER_FREQ` from `src/devices/timer.rs` (24 MHz). -/
def TIMER_FREQ : Nat := 24000000

/-- Physical timer PPI number. -/
def PHYS_TIMER_IRQ : Nat := 30

/-- Virtual timer PPI number. -/
def VIRT_TIMER_IRQ : Nat := 27

/-- Per-timer state (`TimerState` in `src/devices/timer.rs`): the CTL
and CVAL registers.  CTL bit 0 is ENABLE, bit 1 is IMASK; ISTATUS is
computed, not stored. -/
structure TimerState where
  ctl : Nat
  cval : Nat

/-- Rust `TimerState::is_enabled`. -/
def TimerState.is_enabled (s : TimerState) : Bool := s.ctl &&& 1 != 0

/-- Rust `TimerState::is_masked`. -/
def TimerState.is_masked (s : TimerState) : Bool := s.ctl &&& 2 != 0

/-- Rust `TimerState::is_asserted`. -/
def TimerState.is_asserted (s : TimerState) (counter : Nat) : Bool :=
  s.is_enabled && decide (counter ≥ s.cval)

/-- Rust `TimerState::should_interrupt`. -/
def TimerState.should_interrupt (s : TimerState) (counter : Nat) : Bool :=
  s.is_asserted counter && !s.is_masked

/-- Rust `TimerState::read_ctl` (ENABLE | IMASK, plus computed ISTATUS). -/
def TimerState.read_ctl (s : TimerState) (counter : Nat) : Nat :=
  let value := s.ctl &&& 3
  if s.is_asserted counter then value ||| 4 else value

/-- Rust `TimerState::write_ctl` (ISTATUS is read-only and dropped). -/
def TimerState.write_ctl (s : TimerState) (value : Nat) : TimerState :=
  { s with ctl := value &&& 3 }

/-- Rust `TimerState::read_tval`: `cval.wrapping_sub(counter)`. -/
def TimerState.read_tval (s : TimerState) (counter : Nat) : Nat :=
  wsub64 s.cval counter

/-- Rust `TimerState::write_tval`: `cval := counter.wrapping_add(value)`. -/
def TimerState.write_tval (s : TimerState) (value counter : Nat) : TimerState :=
  { s with cval := wadd64 counter value }

/-- Rust `TimerState::read_cval`. -/
def TimerState.read_cval (s : TimerState) : Nat := s.cval

/-- Rust `TimerState::write_cval`. -/
def TimerState.write_cval (s : TimerState) (value : Nat) : TimerState :=
  { s with cval := value }

/-- Rust `Timer` state from `src/devices/timer.rs`.  The wall-clock
`start_time` field is replaced by passing the current physical counter
value (`Timer::get_phys_counter`) as an explicit argument to every
operation that reads the clock. -/
structure Timer where
  phys_timer : TimerState
  virt_timer : TimerState
  virt_offset : Nat

/-- Rust `Timer::get_virt_counter`: physical counter minus the virtual
offset, wrapping. -/
def Timer.get_virt_counter (t : Timer) (physCounter : Nat) : Nat :=
  wsub64 physCounter t.virt_offset

/-- Rust `Timer::phys_timer_pending`. -/
def Timer.phys_timer_pending (t : Timer) (physCounter : Nat) : Bool :=
  t.phys_timer.should_interrupt physCounter

/-- Rust `Timer::virt_timer_pending`. -/
def Timer.virt_timer_pending (t : Timer) (physCounter : Nat) : Bool :=
  t.virt_timer.should_interrupt (t.get_virt_counter physCounter)

/-- Rust `Timer::time_until_next_event`: nanoseconds until the next armed
timer deadline, or none.  A timer contributes only when it is enabled,
unmasked and its compare value is strictly in the future.  The final
conversion `ticks * 1_000_000_000 / TIMER_FREQ` multiplies in `u64`, so
the product wraps modulo `2^64` for large tick counts (release-build
semantics, `wmul64`). -/
def Timer.time_until_next_event (t : Timer) (physCounter : Nat) :
    Option Nat :=
  let virt_counter := t.get_virt_counter physCounter
  let ticks1 : Option Nat :=
    if t.phys_timer.is_enabled && !t.phys_timer.is_masked &&
        decide (t.phys_timer.cval > physCounter) then
      some (t.phys_timer.cval - physCounter)
    else none
  let ticks2 : Option Nat :=
    if t.virt_timer.is_enabled && !t.virt_timer.is_masked &&
        decide (t.virt_timer.cval > virt_counter) then
      let ticks := t.virt_timer.cval - virt_counter
      some (ticks1.elim ticks (fun m => min m ticks))
    else ticks1
  ticks2.map (fun ticks => wmul64 ticks 1000000000 / TIMER_FREQ)

/-- Timer system registers (`TimerReg` in `src/devices/timer.rs`). -/
inductive TimerReg where
  | CNTFRQ_EL0
  | CNTPCT_EL0
  | CNTVCT_EL0
  | CNTP_CTL_EL0
  | CNTP_CVAL_EL0
  | CNTP_TVAL_EL0
  | CNTV_CTL_EL0
  | CNTV_CVAL_EL0
  | CNTV_TVAL_EL0
  | CNTVOFF_EL2
deriving DecidableEq

/-- Rust `Timer::read_sysreg` (always `Ok` in the source, so the `Result`
wrapper is dropped). -/
def Timer.read_sysreg (t : Timer) (physCounter : Nat) (reg : TimerReg) :
    Nat :=
  let virt_counter := t.get_virt_counter physCounter
  match reg with
  | .CNTFRQ_EL0 => TIMER_FREQ
  | .CNTPCT_EL0 => physCounter
  | .CNTVCT_EL0 => virt_counter
  | .CNTP_CTL_EL0 => t.phys_timer.read_ctl physCounter
  | .CNTP_CVAL_EL0 => t.phys_timer.read_cval
  | .CNTP_TVAL_EL0 => t.phys_timer.read_tval physCounter
  | .CNTV_CTL_EL0 => t.virt_timer.read_ctl virt_counter
  | .CNTV_CVAL_EL0 => t.virt_timer.read_cval
  | .CNTV_TVAL_EL0 => t.virt_timer.read_tval virt_counter
  | .CNTVOFF_EL2 => t.virt_offset

/-- Rust `Timer::write_sysreg` (always `Ok` in the source). -/
def Timer.write_sysreg (t : Timer) (physCounter : Nat) (reg : TimerReg)
    (value : Nat) : Timer :=
  let virt_counter := t.get_virt_counter physCounter
  match reg with
  | .CNTFRQ_EL0 => t
  | .CNTPCT_EL0 => t
  | .CNTVCT_EL0 => t
  | .CNTP_CTL_EL0 => { t with phys_timer := t.phys_timer.write_ctl value }
  | .CNTP_CVAL_EL0 => { t with phys_timer := t.phys_timer.write_cval value }
  | .CNTP_TVAL_EL0 =>
    { t with phys_timer := t.phys_timer.write_tval value physCounter }
  | .CNTV_CTL_EL0 => { t with virt_timer := t.virt_timer.write_ctl value }
  | .CNTV_CVAL_EL0 => { t with virt_timer := t.virt_timer.write_cval value }
  | .CNTV_TVAL_EL0 =>
    { t with virt_timer := t.virt_timer.write_tval value virt_counter }
  | .CNTVOFF_EL2 => { t with virt_offset := value }

/-- Modelled from the claim C6's words, for comparison with
`Timer.time_until_next_event`: the minimum over the enabled, unmasked
timers of `(cval − counter) × 10⁹ / F` (wrapping subtraction, as the
spec's counters are 64-bit wrapping), none when no timer is enabled and
unmasked. -/
def claimTimeUntilNextEvent (t : Timer) (physCounter : Nat) : Option Nat :=
  let virt_counter := t.get_virt_counter physCounter
  let cands :=
    (if t.phys_timer.is_enabled && !t.phys_timer.is_masked then
      [wsub64 t.phys_timer.cval physCounter * 1000000000 / TIMER_FREQ]
    else []) ++
    (if t.virt_timer.is_enabled && !t.virt_timer.is_masked then
      [wsub64 t.virt_timer.cval virt_counter * 1000000000 / TIMER_FREQ]
    else [])
  cands.min?

/-- Amended C6: the minimum `m` of `cval − counter` over the enabled,
unmasked timers whose compare value is strictly above their counter,
converted to nanoseconds as the wrapping `u64` product
`(m × 10⁹ mod 2^64) / F`; none when there is no such timer. -/
def amendedTimeUntilNextEvent (t : Timer) (physCounter : Nat) :
    Option Nat :=
  let virt_counter := t.get_virt_counter physCounter
  let cands :=
    (if t.phys_timer.is_enabled && !t.phys_timer.is_masked &&
        decide (t.phys_timer.cval > physCounter) then
      [t.phys_timer.cval - physCounter]
    else []) ++
    (if t.virt_timer.is_enabled && !t.virt_timer.is_masked &&
        decide (t.virt_timer.cval > virt_counter) then
      [t.virt_timer.cval - virt_counter]
    else [])
  cands.min?.map (fun ticks => wmul64 ticks 1000000000 / TIMER_FREQ)

/-- Concrete timer for the C6 counterexample: the physical timer is
enabled and unmasked but its compare value equals the counter. -/
def tEx6 : Timer :=
  { phys_timer := { ctl := 1, cval := 100 }
    virt_timer := { ctl := 0, cval := 0 }
    virt_offset := 0 }

/-- Second concrete timer for the C6 counterexample: the physical timer
is armed `2^63` ticks in the future, far enough that the `u64` product
`ticks × 10⁹` wraps. -/
def tEx6b : Timer :=
  { phys_timer := { ctl := 1, cval := 2 ^ 63 }
    virt_timer := { ctl := 0, cval := 0 }
    virt_offset := 0 }

/-- Counterexample to C6 as stated, in two parts.  At `tEx6` with
counter 100 the physical timer is enabled and unmasked, so the claim
demands the minimum `some ((100 − 100) × 10⁹ / F) = some 0`, but the
code returns `none` because the compare value is not strictly in the
future.  At `tEx6b` with counter 0 the claim's exact formula
`(cval − counter) × 10⁹ / F` demands a huge value, but the code's `u64`
multiplication `2^63 × 10⁹` wraps to 0, so it returns `some 0`. -/
theorem time_until_next_event_counterexample :
    (tEx6.phys_timer.is_enabled = true ∧ tEx6.phys_timer.is_masked = false ∧
      Timer.time_until_next_event tEx6 100 = none ∧
      claimTimeUntilNextEvent tEx6 100 = some 0) ∧
    (Timer.time_until_next_event tEx6b 0 = some 0 ∧
      claimTimeUntilNextEvent tEx6b 0 =
        some ((2 ^ 63 - 0) * 1000000000 / TIMER_FREQ) ∧
      ¬ ((2 ^ 63 - 0) * 1000000000 / TIMER_FREQ = 0)) := by decide

/-- C6 (amended): `time_until_next_event` returns
`some ((m × 10⁹ mod 2^64) / F)` where `m` is the minimum of
`cval − counter` over the enabled, unmasked timers whose compare value
is strictly above their counter, and none when there is no such timer
(the `× 10⁹` step is a `u64` multiplication that wraps). -/
theorem time_until_next_event_spec (t : Timer) (physCounter : Nat) :
    t.time_until_next_event physCounter =
      amendedTimeUntilNextEvent t physCounter := by
  unfold Timer.time_until_next_event amendedTimeUntilNextEvent
  by_cases h1 : (t.phys_timer.is_enabled && !t.phys_timer.is_masked &&
      decide (t.phys_timer.cval > physCounter)) = true <;>
    by_cases h2 : (t.virt_timer.is_enabled && !t.virt_timer.is_masked &&
        decide (t.virt_timer.cval > t.get_virt_counter physCounter)) = true <;>
      simp [h1, h2, List.min?]

/-- Rust `InterruptController::poll_timer_irqs` from
`src/devices/interrupt.rs`: set the timer PPIs pending in the GIC when
the corresponding software timer predicate fires. -/
def poll_timer_irqs (g : Gic) (t : Timer) (physCounter : Nat) : Gic :=
  let g1 := if t.phys_timer_pending physCounter then
      g.set_irq_pending PHYS_TIMER_IRQ
    else g
  if t.virt_timer_pending physCounter then
    g1.set_irq_pending VIRT_TIMER_IRQ
  else g1

/-- Rust `InterruptController::has_pending_irq`. -/
def has_pending_irq (g : Gic) : Bool :=
  g.get_highest_pending_irq.isSome

/-- Rust `Hypervisor::handle_wfi_wfe` from `src/lib.rs`: poll the timer IRQs
into the GIC; when an IRQ is pending continue at once, otherwise sleep
100 µs on the host; in both cases advance the PC by 4.  The result is
the GIC after polling, the new PC, and the host sleep in nanoseconds
(none when no sleep happens). -/
def handle_wfi_wfe (g : Gic) (t : Timer) (physCounter pc : Nat) :
    Gic × Nat × Option Nat :=
  let g' := poll_timer_irqs g t physCounter
  if has_pending_irq g' then (g', (pc + 4) % U64, none)
  else (g', (pc + 4) % U64, some 100000)

/-- Concrete timer for the C3 counterexample: the virtual timer is
armed 24000 ticks (1 ms) in the future. -/
def tEx3 : Timer :=
  { phys_timer := { ctl := 0, cval := 0 }
    virt_timer := { ctl := 1, cval := 124000 }
    virt_offset := 0 }

/-- Counterexample to C3 as stated: with no IRQ pending and a timer
armed 1 ms ahead, the claim demands a host sleep of
`min(time_until_next_event, 10 ms) = 1 ms`, but the handler always
sleeps 100 µs (100000 ns). -/
theorem handle_wfi_wfe_counterexample :
    (handle_wfi_wfe gEx0 tEx3 100000 0).2.2 = some 100000 ∧
    Timer.time_until_next_event tEx3 100000 = some 1000000 ∧
    ¬ (100000 : Nat) = min 1000000 10000000 := by decide

/-- C3 (amended): on a WFI/WFE exit the handler polls timer IRQs into
the GIC; if an IRQ is then pending it advances the PC by 4 and
continues without sleeping; otherwise it sleeps 100 µs on the host
(regardless of the next timer deadline) and then advances the PC
by 4. -/
theorem handle_wfi_wfe_spec (g : Gic) (t : Timer) (physCounter pc : Nat) :
    (has_pending_irq (poll_timer_irqs g t physCounter) = true →
      handle_wfi_wfe g t physCounter pc =
        (poll_timer_irqs g t physCounter, (pc + 4) % U64, none)) ∧
    (has_pending_irq (poll_timer_irqs g t physCounter) = false →
      handle_wfi_wfe g t physCounter pc =
        (poll_timer_irqs g t physCounter, (pc + 4) % U64, some 100000)) := by
  unfold handle_wfi_wfe
  constructor <;> intro h <;> simp [h]

/-- Witness for the amended C3 at `gEx0`/`tEx3` (no pending IRQ). -/
theorem handle_wfi_wfe_spec_witness :
    has_pending_irq (poll_timer_irqs gEx0 tEx3 100000) = false ∧
    handle_wfi_wfe gEx0 tEx3 100000 0 =
      (poll_timer_irqs gEx0 tEx3 100000, (0 + 4) % U64, some 100000) :=
  ⟨by decide, (handle_wfi_wfe_spec gEx0 tEx3 100000 0).2 (by decide)⟩

/-- C7: a CVAL write followed by a CVAL read returns exactly the
written value; a TVAL write sets `cval` to `counter + value` wrapping;
a TVAL read returns `cval − counter` wrapping. -/
theorem timer_cval_tval_spec (t : Timer) (x c v : Nat) (hx : x < U64)
    (hc : c < U64) (hcv : t.phys_timer.cval < U64) :
    (∀ c2, Timer.read_sysreg (Timer.write_sysreg t c .CNTP_CVAL_EL0 x) c2
      .CNTP_CVAL_EL0 = x) ∧
    (Timer.write_sysreg t c .CNTP_TVAL_EL0 v).phys_timer.cval =
      (c + v) % 2 ^ 64 ∧
    Timer.read_sysreg t c .CNTP_TVAL_EL0 =
      (t.phys_timer.cval + 2 ^ 64 - c) % 2 ^ 64 := by
  refine ⟨fun c2 => rfl, rfl, ?_⟩
  show wsub64 t.phys_timer.cval c = _
  unfold wsub64 U64
  rw [Nat.mod_eq_of_lt (show c < 2 ^ 64 from hc),
    Nat.mod_eq_of_lt (show t.phys_timer.cval < 2 ^ 64 from hcv)]

/-- Witness for C7 at a concrete timer and concrete values. -/
theorem timer_cval_tval_spec_witness :
    ((5 : Nat) < U64 ∧ (7 : Nat) < U64 ∧ tEx3.phys_timer.cval < U64) ∧
    ((∀ c2, Timer.read_sysreg (Timer.write_sysreg tEx3 7 .CNTP_CVAL_EL0 5) c2
      .CNTP_CVAL_EL0 = 5) ∧
    (Timer.write_sysreg tEx3 7 .CNTP_TVAL_EL0 9).phys_timer.cval =
      (7 + 9) % 2 ^ 64 ∧
    Timer.read_sysreg tEx3 7 .CNTP_TVAL_EL0 =
      (tEx3.phys_timer.cval + 2 ^ 64 - 7) % 2 ^ 64) :=
  ⟨⟨by decide, by decide, by decide⟩,
    timer_cval_tval_spec tEx3 5 7 9 (by decide) (by decide) (by decide)⟩

/-- Result of `Hypervisor::handle_hvc`: whether the run loop continues
(PSCI CPU_OFF / SYSTEM_OFF / SYSTEM_RESET terminate it as a successful
result), the value of X0 afterwards (on termination the handler
returns before writing X0, so it keeps its old value), the PC
afterwards (the handler never touches the PC: HVC is a preferred-return
exception), and the host sleep in microseconds. -/
structure HvcResult where
  continue_run : Bool
  x0 : Nat
  pc : Nat
  sleep_micros : Nat
deriving DecidableEq

/-- The PSCI function ids accepted by the FEATURES query in
`Hypervisor::handle_hvc`. -/
def psciFeatureIds : List Nat :=
  [0x84000000, 0xC4000001, 0x84000002, 0xC4000003, 0xC4000004,
   0x84000008, 0x84000009]

/-- Rust `Hypervisor::handle_hvc` from `src/lib.rs`: PSCI dispatch on X0. -/
def handle_hvc (x0 x1 pc : Nat) : HvcResult :=
  match x0 with
  | 0x84000000 =>
    { continue_run := true, x0 := 0x00010000, pc := pc, sleep_micros := 0 }
  | 0xC4000001 =>
    { continue_run := true, x0 := 0, pc := pc, sleep_micros := 100 }
  | 0x84000002 =>
    { continue_run := false, x0 := x0, pc := pc, sleep_micros := 0 }
  | 0xC4000003 =>
    { continue_run := true, x0 := U64 - 4, pc := pc, sleep_micros := 0 }
  | 0xC4000004 =>
    { continue_run := true, x0 := 0, pc := pc, sleep_micros := 0 }
  | 0x84000008 =>
    { continue_run := false, x0 := x0, pc := pc, sleep_micros := 0 }
  | 0x84000009 =>
    { continue_run := false, x0 := x0, pc := pc, sleep_micros := 0 }
  | 0x8400000A =>
    let queried :=
      match x1 with
      | 0x84000000 | 0xC4000001 | 0x84000002 | 0xC4000003 | 0xC4000004
      | 0x84000008 | 0x84000009 => 0
      | _ => U64 - 1
    { continue_run := true, x0 := queried, pc := pc, sleep_micros := 0 }
  | _ =>
    { continue_run := true, x0 := U64 - 1, pc := pc, sleep_micros := 0 }

/-- C5: the PSCI dispatch table of the HVC handler.  VERSION returns
`0x0001_0000`; CPU_SUSPEND short-sleeps and returns 0; CPU_ON returns
ALREADY_ON (−4 as a `u64`); AFFINITY_INFO returns 0; FEATURES returns
0 for the seven known ids, −1 otherwise; unknown ids return −1;
CPU_OFF, SYSTEM_OFF and SYSTEM_RESET terminate the run loop; the PC is
never advanced by the handler. -/
theorem handle_hvc_spec (x0 x1 pc : Nat) :
    (x0 = 0x84000000 → handle_hvc x0 x1 pc =
      { continue_run := true, x0 := 0x00010000, pc := pc,
        sleep_micros := 0 }) ∧
    (x0 = 0xC4000001 → handle_hvc x0 x1 pc =
      { continue_run := true, x0 := 0, pc := pc, sleep_micros := 100 }) ∧
    (x0 = 0x84000002 → handle_hvc x0 x1 pc =
      { continue_run := false, x0 := x0, pc := pc, sleep_micros := 0 }) ∧
    (x0 = 0xC4000003 → handle_hvc x0 x1 pc =
      { continue_run := true, x0 := U64 - 4, pc := pc,
        sleep_micros := 0 }) ∧
    (x0 = 0xC4000004 → handle_hvc x0 x1 pc =
      { continue_run := true, x0 := 0, pc := pc, sleep_micros := 0 }) ∧
    (x0 = 0x84000008 → handle_hvc x0 x1 pc =
      { continue_run := false, x0 := x0, pc := pc, sleep_micros := 0 }) ∧
    (x0 = 0x84000009 → handle_hvc x0 x1 pc =
      { continue_run := false, x0 := x0, pc := pc, sleep_micros := 0 }) ∧
    (x0 = 0x8400000A → handle_hvc x0 x1 pc =
      { continue_run := true,
        x0 := if x1 ∈ psciFeatureIds then 0 else U64 - 1, pc := pc,
        sleep_micros := 0 }) ∧
    (x0 ∉ psciFeatureIds → x0 ≠ 0x8400000A → handle_hvc x0 x1 pc =
      { continue_run := true, x0 := U64 - 1, pc := pc,
        sleep_micros := 0 }) ∧
    (handle_hvc x0 x1 pc).pc = pc := by
  refine ⟨fun h => by subst h; rfl, fun h => by subst h; rfl,
    fun h => by subst h; rfl, fun h => by subst h; rfl,
    fun h => by subst h; rfl, fun h => by subst h; rfl,
    fun h => by subst h; rfl, ?_, ?_, ?_⟩
  · intro h
    subst h
    unfold handle_hvc
    split <;> simp_all [psciFeatureIds] <;> split <;> simp_all
  · intro h1 h2
    unfold handle_hvc
    split <;> simp_all [psciFeatureIds]
  · unfold handle_hvc
    split <;> rfl

/-- Witness for C5: the VERSION call at a concrete PC. -/
theorem handle_hvc_spec_witness :
    handle_hvc 0x84000000 0 64 =
      { continue_run := true, x0 := 0x00010000, pc := 64,
        sleep_micros := 0 } :=
  (handle_hvc_spec 0x84000000 0 64).1 rfl

/-- One registered MMIO device (`Box<dyn MmioHandler>` in
`src/mmio.rs`): its base and size, a device state of type `σ`, and the
trait's read/write methods acting on that state.  Fallible Rust
`Result`s become `Option`. -/
structure MmioDev (σ : Type) where
  base : Nat
  size : Nat
  st : σ
  read : σ → Nat → Nat → Option (Nat × σ)
  write : σ → Nat → Nat → Nat → Option σ

/-- Rust `MmioManager::handle_read`: scan the registered devices in order
and forward `(addr − base, width)` to the first device whose
`[base, base + size)` range contains `addr`; on a miss, return 0 (the
stderr warning is not modelled) with every device untouched. -/
def handle_read {σ : Type} (hs : List (MmioDev σ)) (addr width : Nat) :
    Option (Nat × List (MmioDev σ)) :=
  match hs with
  | [] => some (0, [])
  | d :: rest =>
    if d.base ≤ addr ∧ addr < d.base + d.size then
      (d.read d.st (addr - d.base) width).map
        (fun vs => (vs.1, { d with st := vs.2 } :: rest))
    else
      (handle_read rest addr width).map (fun vr => (vr.1, d :: vr.2))

/-- Rust `MmioManager::handle_write`: symmetric to `handle_read`; a miss
warns and silently succeeds. -/
def handle_write {σ : Type} (hs : List (MmioDev σ))
    (addr value width : Nat) : Option (List (MmioDev σ)) :=
  match hs with
  | [] => some []
  | d :: rest =>
    if d.base ≤ addr ∧ addr < d.base + d.size then
      (d.write d.st (addr - d.base) value width).map
        (fun s => { d with st := s } :: rest)
    else
      (handle_write rest addr value width).map (fun rest2 => d :: rest2)

/-- A missed read returns 0 and leaves the device list unchanged. -/
theorem handle_read_miss {σ : Type} (hs : List (MmioDev σ))
    (addr width : Nat)
    (h : ∀ d' ∈ hs, ¬ (d'.base ≤ addr ∧ addr < d'.base + d'.size)) :
    handle_read hs addr width = some (0, hs) := by
  induction hs with
  | nil => rfl
  | cons d rest ih =>
    unfold handle_read
    rw [if_neg (h d (by simp)), ih (fun d' hd' => h d' (by simp [hd']))]
    rfl

/-- A missed write succeeds and leaves the device list unchanged. -/
theorem handle_write_miss {σ : Type} (hs : List (MmioDev σ))
    (addr value width : Nat)
    (h : ∀ d' ∈ hs, ¬ (d'.base ≤ addr ∧ addr < d'.base + d'.size)) :
    handle_write hs addr value width = some hs := by
  induction hs with
  | nil => rfl
  | cons d rest ih =>
    unfold handle_write
    rw [if_neg (h d (by simp)), ih (fun d' hd' => h d' (by simp [hd']))]
    rfl

/-- A read whose address falls in device `d`'s range (and misses every
device registered before `d`) is forwarded to `d` at offset
`addr − base` with the same width. -/
theorem handle_read_hit {σ : Type} (pre post : List (MmioDev σ))
    (d : MmioDev σ) (addr width : Nat)
    (hpre : ∀ d' ∈ pre, ¬ (d'.base ≤ addr ∧ addr < d'.base + d'.size))
    (h1 : d.base ≤ addr) (h2 : addr < d.base + d.size) :
    handle_read (pre ++ d :: post) addr width =
      (d.read d.st (addr - d.base) width).map
        (fun vs => (vs.1, pre ++ { d with st := vs.2 } :: post)) := by
  induction pre with
  | nil =>
    show handle_read (d :: post) addr width = _
    unfold handle_read
    rw [if_pos ⟨h1, h2⟩]
    rfl
  | cons e pre ih =>
    show handle_read (e :: (pre ++ d :: post)) addr width = _
    unfold handle_read
    rw [if_neg (hpre e (by simp)), ih (fun d' hd' => hpre d' (by simp [hd']))]
    cases d.read d.st (addr - d.base) width <;> rfl

/-- Symmetric hit lemma for writes. -/
theorem handle_write_hit {σ : Type} (pre post : List (MmioDev σ))
    (d : MmioDev σ) (addr value width : Nat)
    (hpre : ∀ d' ∈ pre, ¬ (d'.base ≤ addr ∧ addr < d'.base + d'.size))
    (h1 : d.base ≤ addr) (h2 : addr < d.base + d.size) :
    handle_write (pre ++ d :: post) addr value width =
      (d.write d.st (addr - d.base) value width).map
        (fun s => pre ++ { d with st := s } :: post) := by
  induction pre with
  | nil =>
    show handle_write (d :: post) addr value width = _
    unfold handle_write
    rw [if_pos ⟨h1, h2⟩]
    rfl
  | cons e pre ih =>
    show handle_write (e :: (pre ++ d :: post)) addr value width = _
    unfold handle_write
    rw [if_neg (hpre e (by simp)), ih (fun d' hd' => hpre d' (by simp [hd']))]
    cases d.write d.st (addr - d.base) value width <;> rfl

/-- C8: an access to an address covered by no registered device reads
as 0 and writes successfully, changing no device state; an access
inside a device's `[base, base + size)` range is forwarded to that
device (the first device containing the address — unique under the
spec's no-overlap invariant) at offset `addr − base` with the same
width. -/
theorem mmio_spec {σ : Type} (hs pre post : List (MmioDev σ))
    (d : MmioDev σ) (addr value width : Nat) :
    ((∀ d' ∈ hs, ¬ (d'.base ≤ addr ∧ addr < d'.base + d'.size)) →
      handle_read hs addr width = some (0, hs) ∧
      handle_write hs addr value width = some hs) ∧
    (hs = pre ++ d :: post →
      (∀ d' ∈ pre, ¬ (d'.base ≤ addr ∧ addr < d'.base + d'.size)) →
      d.base ≤ addr → addr < d.base + d.size →
      handle_read hs addr width =
        (d.read d.st (addr - d.base) width).map
          (fun vs => (vs.1, pre ++ { d with st := vs.2 } :: post)) ∧
      handle_write hs addr value width =
        (d.write d.st (addr - d.base) value width).map
          (fun s => pre ++ { d with st := s } :: post)) := by
  constructor
  · intro h
    exact ⟨handle_read_miss hs addr width h,
      handle_write_miss hs addr value width h⟩
  · intro hsplit hpre h1 h2
    subst hsplit
    exact ⟨handle_read_hit pre post d addr width hpre h1 h2,
      handle_write_hit pre post d addr value width hpre h1 h2⟩

/-- Concrete device for the C8 witness, with `Nat` state. -/
def devA : MmioDev Nat :=
  { base := 0x1000, size := 0x100, st := 0
    read := fun s off w => some (s + off + w, s)
    write := fun _s off v w => some (off + v + w) }

/-- Second concrete device for the C8 witness. -/
def devB : MmioDev Nat :=
  { base := 0x2000, size := 0x100, st := 5
    read := fun s off w => some (s + off + w, s)
    write := fun _s off v w => some (off + v + w) }

/-- Witness for C8: a hit on the second registered device. -/
theorem mmio_spec_witness :
    handle_read [devA, devB] 0x2040 4 =
      (devB.read devB.st (0x2040 - devB.base) 4).map
        (fun vs => (vs.1, [devA] ++ { devB with st := vs.2 } :: [])) ∧
    handle_write [devA, devB] 0x2040 9 4 =
      (devB.write devB.st (0x2040 - devB.base) 9 4).map
        (fun s => [devA] ++ { devB with st := s } :: []) :=
  (mmio_spec [devA, devB] [devA] [] devB 0x2040 9 4).2 rfl
    (by decide) (by decide) (by decide)

/-- Rust `Hypervisor::get_register_by_index`: X0..X30 come from the register
file; index 31 (and, in the source's catch-all arm, anything larger)
reads as zero (XZR). -/
def get_register_by_index (regs : Nat → Nat) (index : Nat) : Nat :=
  if index ≤ 30 then regs index else 0

/-- Rust `Hypervisor::set_register_by_index`: index 31 (and larger) discards
the write. -/
def set_register_by_index (regs : Nat → Nat) (index value : Nat) :
    Nat → Nat :=
  if index ≤ 30 then Function.update regs index value else regs

/-- Rust `Hypervisor::handle_data_abort` from `src/lib.rs`: decode the ISS
(low 25 bits of the syndrome), dispatch the access to the MMIO bus and
advance the PC by 4.  When ISV (ISS bit 24) is clear, the source uses
register index 0 instead of the SRT field. -/
def handle_data_abort {σ : Type} (hs : List (MmioDev σ))
    (regs : Nat → Nat) (pc syndrome fault_ipa : Nat) :
    Option (List (MmioDev σ) × (Nat → Nat) × Nat) :=
  let iss := syndrome &&& 0x1FFFFFF
  let isv := (iss >>> 24) &&& 0x1
  let is_write := iss &&& (1 <<< 6) != 0
  let sas := (iss >>> 22) &&& 0x3
  let size := 1 <<< sas
  let srt := if isv != 0 then (iss >>> 16) &&& 0x1F else 0
  if is_write then
    let value := get_register_by_index regs srt
    (handle_write hs fault_ipa value size).map
      (fun hs' => (hs', regs, (pc + 4) % U64))
  else
    (handle_read hs fault_ipa size).map
      (fun vr => (vr.2, set_register_by_index regs srt vr.1, (pc + 4) % U64))

/-- An index masked with `0x1F` is at most 31. -/
theorem and_1F_le (x : Nat) : x &&& 0x1F ≤ 31 := Nat.and_le_right

/-- Rust `set_register_by_index` discards exactly the XZR index 31 when the
index is a 5-bit value. -/
theorem set_register_eq (regs : Nat → Nat) (srt : Nat) (h : srt ≤ 31)
    (value : Nat) :
    set_register_by_index regs srt value =
      if srt = 31 then regs else Function.update regs srt value := by
  unfold set_register_by_index
  by_cases h31 : srt = 31
  · rw [if_pos h31, if_neg (by omega)]
  · rw [if_neg h31, if_pos (by omega)]

/-- C4 (amended): on a Data Abort the handler decodes ISV from ISS bit
24, WnR from bit 6 and the width `1 <<< SAS` from bits 23:22.  When
ISV = 1 the register index SRT comes from bits 20:16; when ISV = 0 the
source substitutes register index 0.  A write reads register X(SRT)
(XZR reads 0) and forwards it to `handle_write`; a read forwards to
`handle_read` and stores the result in X(SRT), discarded when
SRT = 31; in every case the PC advances by exactly 4.  The ISV bit is
always 0 or 1, so the two outer implications are exhaustive. -/
theorem handle_data_abort_spec {σ : Type} (hs : List (MmioDev σ))
    (regs : Nat → Nat) (pc syndrome fault_ipa : Nat)
    (hpc : pc + 4 < U64) :
    (((syndrome &&& 0x1FFFFFF) >>> 24) &&& 0x1 = 1 →
      ((syndrome &&& 0x1FFFFFF) &&& (1 <<< 6) ≠ 0 →
        handle_data_abort hs regs pc syndrome fault_ipa =
          (handle_write hs fault_ipa
            (get_register_by_index regs
              (((syndrome &&& 0x1FFFFFF) >>> 16) &&& 0x1F))
            (1 <<< (((syndrome &&& 0x1FFFFFF) >>> 22) &&& 0x3))).map
            (fun hs' => (hs', regs, pc + 4))) ∧
      ((syndrome &&& 0x1FFFFFF) &&& (1 <<< 6) = 0 →
        handle_data_abort hs regs pc syndrome fault_ipa =
          (handle_read hs fault_ipa
            (1 <<< (((syndrome &&& 0x1FFFFFF) >>> 22) &&& 0x3))).map
            (fun vr => (vr.2,
              (if ((syndrome &&& 0x1FFFFFF) >>> 16) &&& 0x1F = 31 then regs
               else Function.update regs
                 (((syndrome &&& 0x1FFFFFF) >>> 16) &&& 0x1F) vr.1),
              pc + 4)))) ∧
    (((syndrome &&& 0x1FFFFFF) >>> 24) &&& 0x1 = 0 →
      ((syndrome &&& 0x1FFFFFF) &&& (1 <<< 6) ≠ 0 →
        handle_data_abort hs regs pc syndrome fault_ipa =
          (handle_write hs fault_ipa (get_register_by_index regs 0)
            (1 <<< (((syndrome &&& 0x1FFFFFF) >>> 22) &&& 0x3))).map
            (fun hs' => (hs', regs, pc + 4))) ∧
      ((syndrome &&& 0x1FFFFFF) &&& (1 <<< 6) = 0 →
        handle_data_abort hs regs pc syndrome fault_ipa =
          (handle_read hs fault_ipa
            (1 <<< (((syndrome &&& 0x1FFFFFF) >>> 22) &&& 0x3))).map
            (fun vr => (vr.2, Function.update regs 0 vr.1, pc + 4)))) ∧
    (1 <<< (((syndrome &&& 0x1FFFFFF) >>> 22) &&& 0x3) = 1 ∨
     1 <<< (((syndrome &&& 0x1FFFFFF) >>> 22) &&& 0x3) = 2 ∨
     1 <<< (((syndrome &&& 0x1FFFFFF) >>> 22) &&& 0x3) = 4 ∨
     1 <<< (((syndrome &&& 0x1FFFFFF) >>> 22) &&& 0x3) = 8) := by
  refine ⟨fun hisv => ⟨?_, ?_⟩, fun hisv => ⟨?_, ?_⟩, ?_⟩
  · intro hw
    simp only [handle_data_abort, hisv]
    rw [if_pos (bne_iff_ne.mpr hw)]
    simp [Nat.mod_eq_of_lt hpc]
  · intro hr
    simp only [handle_data_abort, hisv]
    rw [if_neg (fun hc => absurd hr (bne_iff_ne.mp hc))]
    have hsrt : ((syndrome &&& 0x1FFFFFF) >>> 16) &&& 0x1F ≤ 31 :=
      and_1F_le _
    simp [Nat.mod_eq_of_lt hpc,
      set_register_eq regs (((syndrome &&& 0x1FFFFFF) >>> 16) &&& 0x1F) hsrt]
  · intro hw
    simp only [handle_data_abort, hisv]
    rw [if_pos (bne_iff_ne.mpr hw)]
    simp [Nat.mod_eq_of_lt hpc]
  · intro hr
    simp only [handle_data_abort, hisv]
    rw [if_neg (fun hc => absurd hr (bne_iff_ne.mp hc))]
    simp [Nat.mod_eq_of_lt hpc, set_register_by_index]
  · have hsas : ((syndrome &&& 0x1FFFFFF) >>> 22) &&& 0x3 ≤ 3 :=
      Nat.and_le_right
    have h4 : ((syndrome &&& 0x1FFFFFF) >>> 22) &&& 0x3 = 0 ∨
        ((syndrome &&& 0x1FFFFFF) >>> 22) &&& 0x3 = 1 ∨
        ((syndrome &&& 0x1FFFFFF) >>> 22) &&& 0x3 = 2 ∨
        ((syndrome &&& 0x1FFFFFF) >>> 22) &&& 0x3 = 3 := by omega
    rcases h4 with h | h | h | h <;> rw [h] <;> simp

/-- Register file for the C4 counterexample: X0 = 7, X1 = 42. -/
def regsEx4 : Nat → Nat :=
  fun i => if i = 0 then 7 else if i = 1 then 42 else 0

/-- Concrete device for C4: a write stores the written value as the
device state, so the state records what reached the device. -/
def devW : MmioDev Nat :=
  { base := 0x1000, size := 0x100, st := 0
    read := fun s _off _w => some (s, s)
    write := fun _s _off v _w => some v }

/-- Counterexample to C4 as stated: the syndrome 8454208 has ISV = 0,
WnR = 1 and SRT bits 20:16 equal to 1, whose register X1 holds 42 —
yet the device receives 7, the value of X0, because the source
substitutes register index 0 whenever ISV = 0. -/
theorem handle_data_abort_counterexample :
    ((handle_data_abort [devW] regsEx4 0 8454208 0x1000).map
      (fun r => r.1.map (fun d => d.st))) = some [7] ∧
    ((8454208 &&& 0x1FFFFFF) >>> 24) &&& 0x1 = 0 ∧
    (((8454208 &&& 0x1FFFFFF) >>> 16) &&& 0x1F) = 1 ∧
    regsEx4 1 = 42 ∧ (7 : Nat) ≠ 42 := by decide

/-- Witness for the amended C4: a 4-byte MMIO write with ISV = 1, and
a 4-byte MMIO write with ISV = 0 (which dispatches with register
index 0). -/
theorem handle_data_abort_spec_witness :
    (handle_data_abort [devW] regsEx4 0 25231424 0x1000 =
      (handle_write [devW] 0x1000
        (get_register_by_index regsEx4
          (((25231424 &&& 0x1FFFFFF) >>> 16) &&& 0x1F))
        (1 <<< (((25231424 &&& 0x1FFFFFF) >>> 22) &&& 0x3))).map
        (fun hs' => (hs', regsEx4, 0 + 4))) ∧
    (handle_data_abort [devW] regsEx4 0 8454208 0x1000 =
      (handle_write [devW] 0x1000 (get_register_by_index regsEx4 0)
        (1 <<< (((8454208 &&& 0x1FFFFFF) >>> 22) &&& 0x3))).map
        (fun hs' => (hs', regsEx4, 0 + 4))) :=
  ⟨((handle_data_abort_spec [devW] regsEx4 0 25231424 0x1000
      (by decide)).1 (by decide)).1 (by decide),
    ((handle_data_abort_spec [devW] regsEx4 0 8454208 0x1000
      (by decide)).2.1 (by decide)).1 (by decide)⟩

/-- PL011 UART register state (`Pl011Uart` in `src/devices/uart.rs`);
`base_addr` affects only bus registration and is omitted. -/
structure Pl011Uart where
  ibrd : Nat
  fbrd : Nat
  lcr_h : Nat
  cr : Nat
  ifls : Nat
  imsc : Nat
  ris : Nat
  dmacr : Nat
  rsr : Nat
deriving DecidableEq

/-- Rust `Pl011Uart::get_flags`: TXFE, RXFE, CTS, DSR and DCD always
asserted. -/
def Pl011Uart.get_flags (_u : Pl011Uart) : Nat :=
  ((((0 ||| (1 <<< 7)) ||| (1 <<< 4)) ||| (1 <<< 0)) ||| (1 <<< 1)) |||
    (1 <<< 2)

/-- Rust `Pl011Uart::get_mis`: raw status masked by IMSC. -/
def Pl011Uart.get_mis (u : Pl011Uart) : Nat := u.ris &&& u.imsc

/-- Rust `Pl011Uart::read` (the source takes `&mut self` but never mutates,
and always returns `Ok`). -/
def Pl011Uart.read (u : Pl011Uart) (offset : Nat) : Nat :=
  match offset with
  | 0x00 => 0
  | 0x04 => u.rsr
  | 0x18 => u.get_flags
  | 0x20 => 0
  | 0x24 => u.ibrd
  | 0x28 => u.fbrd
  | 0x2C => u.lcr_h
  | 0x30 => u.cr
  | 0x34 => u.ifls
  | 0x38 => u.imsc
  | 0x3C => u.ris
  | 0x40 => u.get_mis
  | 0x44 => 0
  | 0x48 => u.dmacr
  | 0xFE0 => 0x11
  | 0xFE4 => 0x10
  | 0xFE8 => 0x14
  | 0xFEC => 0x00
  | 0xFF0 => 0x0D
  | 0xFF4 => 0xF0
  | 0xFF8 => 0x05
  | 0xFFC => 0xB1
  | _ => 0

/-- Rust `Pl011Uart::write`; the second component is the byte stream sent to
stdout (a DR write emits the low byte).  ICR clears the written bits of
RIS (`&= !value`, a 64-bit complement) and re-asserts TXIM
(`1 <<< 5`). -/
def Pl011Uart.write (u : Pl011Uart) (offset value : Nat) :
    Pl011Uart × List Nat :=
  match offset with
  | 0x00 => (u, [value &&& 0xFF])
  | 0x04 => ({ u with rsr := 0 }, [])
  | 0x18 => (u, [])
  | 0x20 => (u, [])
  | 0x24 => ({ u with ibrd := value &&& 0xFFFF }, [])
  | 0x28 => ({ u with fbrd := value &&& 0x3F }, [])
  | 0x2C => ({ u with lcr_h := value &&& 0xFF }, [])
  | 0x30 => ({ u with cr := value &&& 0xFFFF }, [])
  | 0x34 => ({ u with ifls := value &&& 0x3F }, [])
  | 0x38 => ({ u with imsc := value &&& 0x7FF }, [])
  | 0x3C => (u, [])
  | 0x40 => (u, [])
  | 0x44 =>
    ({ u with ris := (u.ris &&& ((U64 - 1) ^^^ value)) ||| (1 <<< 5) }, [])
  | 0x48 => ({ u with dmacr := value &&& 0x7 }, [])
  | _ => (u, [])

/-- The documented UART write set: DR, RSR_ECR, IBRD, FBRD, LCR_H, CR,
IFLS, IMSC, ICR, DMACR. -/
def uartWriteOffsets : List Nat :=
  [0x00, 0x04, 0x24, 0x28, 0x2C, 0x30, 0x34, 0x38, 0x44, 0x48]

/-- C9: a write to any register offset outside the documented write set
leaves the UART state unchanged (and emits no output), so every
subsequent read of every register returns the same value as before. -/
theorem uart_frame_spec (u : Pl011Uart) (offset value : Nat)
    (h : offset ∉ uartWriteOffsets) :
    (u.write offset value).1 = u ∧
    (∀ off2, ((u.write offset value).1).read off2 = u.read off2) := by
  have h1 : (u.write offset value).1 = u := by
    unfold Pl011Uart.write
    split <;> simp_all [uartWriteOffsets]
  exact ⟨h1, fun off2 => by rw [h1]⟩

/-- Concrete UART state for the C9 witness. -/
def uEx : Pl011Uart :=
  { ibrd := 1, fbrd := 2, lcr_h := 3, cr := 0x300, ifls := 0x12,
    imsc := 0x50, ris := 0x20, dmacr := 0, rsr := 0 }

/-- Witness for C9: a write to the read-only FR register (0x18). -/
theorem uart_frame_spec_witness :
    (0x18 : Nat) ∉ uartWriteOffsets ∧
    ((uEx.write 0x18 0xFF).1 = uEx ∧
      ∀ off2, ((uEx.write 0x18 0xFF).1).read off2 = uEx.read off2) :=
  ⟨by decide, uart_frame_spec uEx 0x18 0xFF (by decide)⟩

end Hypervisor
